import Mathlib

/-!
Verification development for the solo-scanner price scraper
(src/scraper/scraper.py).  The Python module is shallowly embedded:
JSON-like values become the inductive `Json` (Python `None` is
`Json.null`), Python exceptions become the `Err` sum returned through
`Except`, floats are modelled as exact rationals, and each retailer
adapter is translated function-by-function from the source.  The single
HTTP call an adapter performs is represented by an oracle
`Ctx.http : Request → Except Err Json` standing for
`session.request(...).raise_for_status(); response.json()`; session-level
defaults live behind the oracle.
-/

/-- Python/JSON values as produced by `json.loads`; `null` doubles as
Python `None` (they are the same object in the source). Numbers are
modelled as exact rationals. -/
inductive Json where
  | null
  | bool (b : Bool)
  | num (q : ℚ)
  | str (s : String)
  | arr (elems : List Json)
  | obj (fields : List (String × Json))

/-- Python exceptions that the embedded code can raise.  `httpError`
stands for transport errors / `raise_for_status` coming out of the HTTP
oracle. -/
inductive Err where
  | valueError (msg : String)
  | typeError (msg : String)
  | indexError (msg : String)
  | attributeError (msg : String)
  | httpError (msg : String)
deriving DecidableEq, Repr

/-- Python truthiness (`bool(x)`) for the modelled values: `None`,
`False`, `0`, `""`, `[]` and `{}` are falsy. -/
def truthy : Json → Bool
  | Json.null => false
  | Json.bool b => b
  | Json.num q => if q = 0 then false else true
  | Json.str s => if s = "" then false else true
  | Json.arr [] => false
  | Json.arr (_ :: _) => true
  | Json.obj [] => false
  | Json.obj (_ :: _) => true

/-- Python `x is None`. -/
def Json.isNull : Json → Bool
  | Json.null => true
  | _ => false

/-- Python `a or b`: the left operand when truthy, otherwise the right. -/
def pyOr (a b : Json) : Json := if truthy a then a else b

/-- Python `dict.get(k)` on a JSON object: the stored value, or `None`
(`Json.null`) when the key is absent.  Later duplicate keys win, as in
`json.loads`. -/
def jget (kvs : List (String × Json)) (k : String) : Json :=
  match kvs.foldl (fun acc kv => if kv.1 == k then some kv.2 else acc)
      (none : Option Json) with
  | some v => v
  | none => Json.null

/-- Python `k in d` for a JSON object. -/
def hasKey (kvs : List (String × Json)) (k : String) : Bool :=
  kvs.any fun kv => kv.1 == k

/-- Value of a nonempty all-digit character list, `none` otherwise. -/
def digitsVal : List Char → Option Nat
  | [] => none
  | cs =>
    cs.foldl (fun acc c =>
      match acc with
      | none => none
      | some n => if c.isDigit then some (n * 10 + (c.toNat - 48)) else none)
      (some 0)

/-- Python `int(s)` on the path segments: optional sign followed by
digits, `none` standing for the `ValueError` branch.  (Whitespace and
underscore forms of Python int literals are not modelled; no path in
the source or in the claims uses them.) -/
def pyInt (s : String) : Option Int :=
  match s.toList with
  | '-' :: rest => (digitsVal rest).map fun n => -(n : Int)
  | '+' :: rest => (digitsVal rest).map fun n => (n : Int)
  | cs => (digitsVal cs).map fun n => (n : Int)

/-- Simplified model of Python `float(s)` string parsing: optional sign,
digits, optional fractional part.  None of the claims exercises string
prices, so the exotic forms (`"1."`, `"inf"`, whitespace) are not
modelled. -/
def parseDecimal (s : String) : Option ℚ :=
  match s.splitOn "." with
  | [a] => (pyInt a).map fun i => (i : ℚ)
  | [a, b] =>
    match pyInt a, digitsVal b.toList with
    | some i, some f =>
      some (if s.startsWith "-" then (i : ℚ) - (f : ℚ) / (10 : ℚ) ^ b.length
            else (i : ℚ) + (f : ℚ) / (10 : ℚ) ^ b.length)
    | _, _ => none
  | _ => none

/-- Message of the `TypeError` CPython raises for `float(None)`. -/
def floatNoneMsg : String :=
  "float() argument must be a string or a real number, not \x27NoneType\x27"

/-- Python `float(x)` on the modelled values. -/
def pyFloat : Json → Except Err ℚ
  | Json.num q => .ok q
  | Json.bool b => .ok (if b then 1 else 0)
  | Json.str s =>
    match parseDecimal s with
    | some q => .ok q
    | none => .error (Err.valueError ("could not convert string to float: \x27" ++ s ++ "\x27"))
  | Json.null => .error (Err.typeError floatNoneMsg)
  | Json.arr _ => .error (Err.typeError "float() argument must be a string or a real number, not \x27list\x27")
  | Json.obj _ => .error (Err.typeError "float() argument must be a string or a real number, not \x27dict\x27")

/-- Loop body of `extract_path` (scraper.py lines 82-98), walking the
already-split segments.  Mirrors the source exactly: on a list value the
segment is parsed with `int`, segments `>= len` return `None`, and the
subsequent Python indexing accepts negative indices down to `-len` and
raises `IndexError` below that. -/
def extract_path_go : List String → Json → Except Err Json
  | [], current => .ok current
  | part :: rest, current =>
    match current with
    | Json.null => .ok Json.null
    | Json.arr xs =>
      match pyInt part with
      | none => .ok Json.null
      | some idx =>
        if (xs.length : Int) ≤ idx then .ok Json.null
        else
          let j : Int := if idx < 0 then idx + (xs.length : Int) else idx
          if 0 ≤ j then extract_path_go rest (xs.getD j.toNat Json.null)
          else .error (Err.indexError "list index out of range")
    | Json.obj kvs => extract_path_go rest (jget kvs part)
    | _ => .ok Json.null

/-- Accumulator worker for `pySplitDot`. -/
def splitDotAux : List Char → List Char → List String
  | [], acc => [String.mk acc.reverse]
  | c :: rest, acc =>
    if c = '.' then String.mk acc.reverse :: splitDotAux rest []
    else splitDotAux rest (c :: acc)

/-- Python `s.split('.')` (structural, so that it computes by
reduction): every separator occurrence cuts, empty segments included. -/
def pySplitDot (s : String) : List String := splitDotAux s.toList []

/-- `extract_path(data, dotted_path)` (scraper.py lines 79-98).  A falsy
(absent or empty) path returns `None` immediately. -/
def extract_path (data : Json) (dotted_path : Option String) : Except Err Json :=
  match dotted_path with
  | none => .ok Json.null
  | some p => if p = "" then .ok Json.null else extract_path_go (pySplitDot p) data

/-- `PackConfig` (scraper.py lines 32-56).  `extra` is carried for
fidelity but never read by the adapters. -/
structure PackConfig where
  retailer : String
  suburb : String
  pack_size : Int
  url : String
  source : String
  product_id : Option String
  store_id : Option String
  headers : Option (List (String × String))
  extra : Option Json

/-- Normalized price payload returned by every adapter (the dict built
at the end of each `fetch_*`). -/
structure Payload where
  price_total : ℚ
  price_unit : ℚ
  checked_at : ℤ
deriving DecidableEq, Repr

/-- Persisted display row built by `build_entry`. -/
structure Entry where
  retailer : String
  suburb : String
  pack_size : Int
  price_total : ℚ
  price_unit : ℚ
  url : String
  checked_at : ℤ
deriving DecidableEq, Repr

/-- One HTTP request as issued by an adapter: the explicit per-call
pieces of `session.get`/`session.post` (session-level defaults belong to
the oracle). -/
structure Request where
  method : String
  url : String
  headers : List (String × String)
  body : Option Json

/-- Ambient state of a run: the HTTP oracle (one response per request,
standing for `raise_for_status` + `.json()`), the configuration
`credentials` mapping, `os.getenv`, and the current `time.time()`
truncated to seconds. -/
structure Ctx where
  http : Request → Except Err Json
  credentials : List (String × Json)
  env : String → Option String
  now : ℤ

/-- Truthiness of `Optional[str]` fields such as `pack.product_id`. -/
def ostrTruthy : Option String → Bool
  | none => false
  | some s => if s = "" then false else true

/-- Python `a or b` on an optional string with a string default, as in
`pack.store_id or "DMONLINE"`. -/
def pyOrStr (a : Option String) (b : String) : String :=
  match a with
  | some s => if s = "" then b else s
  | none => b

def USER_AGENT : String :=
  "Mozilla/5.0 (Macintosh; Intel Mac OS X 10_15_7) AppleWebKit/537.36 (KHTML, like Gecko) Chrome/123.0.0.0 Safari/537.36"

/-- `d[k] = v` on an insertion-ordered string dict. -/
def dictSet (d : List (String × String)) (k v : String) : List (String × String) :=
  if d.any (fun kv => kv.1 == k) then d.map (fun kv => if kv.1 == k then (k, v) else kv)
  else d ++ [(k, v)]

/-- `base.update(upd)` on insertion-ordered string dicts. -/
def dictUpdate (base upd : List (String × String)) : List (String × String) :=
  upd.foldl (fun acc kv => dictSet acc kv.1 kv.2) base

/-- `d.setdefault(k, v)` on an insertion-ordered string dict. -/
def setdefault (d : List (String × String)) (k v : String) : List (String × String) :=
  if d.any (fun kv => kv.1 == k) then d else d ++ [(k, v)]

/-- Lookup in an insertion-ordered string dict (later duplicates win). -/
def slookup (d : List (String × String)) (k : String) : Option String :=
  d.foldl (fun acc kv => if kv.1 == k then some kv.2 else acc) none

/-- `normalise_headers` (scraper.py lines 72-76). -/
def normalise_headers (headers : Option (List (String × String))) : List (String × String) :=
  dictUpdate [("User-Agent", USER_AGENT), ("Accept", "application/json")] (headers.getD [])

/-- Shared tail of every adapter (e.g. scraper.py lines 129-136): derive
the unit price as `float(price_total) / pack_size` when no unit price
was found and `pack_size` is truthy, then build the payload dict with
`float` conversions in source order. -/
def finish_payload (now : ℤ) (pack_size : Int) (price_total unit_price : Json) :
    Except Err Payload :=
  match (if unit_price.isNull ∧ pack_size ≠ 0 then
           (pyFloat price_total).map (fun t => Json.num (t / (pack_size : ℚ)))
         else Except.ok unit_price) with
  | .error e => .error e
  | .ok unit' =>
    match pyFloat price_total, pyFloat unit' with
    | .error e, _ => .error e
    | .ok _, .error e => .error e
    | .ok pt, .ok pu => .ok ⟨pt, pu, now⟩

/-- Request built by `fetch_dan_murphys` (scraper.py lines 104-108); the
call passes no per-request headers. -/
def danmurphys_request (pack : PackConfig) : Request :=
  { method := "GET"
  , url := "https://api.danmurphys.com.au/apis/ui/product/v3/detail/" ++ pack.product_id.getD ""
        ++ "?storeId=" ++ pyOrStr pack.store_id "DMONLINE"
  , headers := []
  , body := none }

/-- Price-object location of `fetch_dan_murphys` (scraper.py lines
112-118): a case-variant "Price" key, else the first element of a
nonempty "Products" list.  `products[0].get` raises `AttributeError` on
a non-dict element, as in Python. -/
def danmurphys_price_info (data : Json) : Except Err Json :=
  match data with
  | Json.obj kvs =>
    let p0 := pyOr (jget kvs "Price") (jget kvs "price")
    if !truthy p0 && hasKey kvs "Products" then
      match pyOr (jget kvs "Products") (pyOr (jget kvs "products") (Json.arr [])) with
      | Json.arr (x :: _) =>
        match x with
        | Json.obj xk => .ok (pyOr (jget xk "Price") (jget xk "price"))
        | _ => .error (Err.attributeError "object has no attribute get")
      | _ => .ok p0
    else .ok p0
  | _ => .ok Json.null

/-- Total-price `or` chain of `fetch_dan_murphys` (scraper.py line 123). -/
def danmurphys_total (pd : List (String × Json)) : Json :=
  pyOr (jget pd "FinalPrice") (pyOr (jget pd "Price") (jget pd "SalePrice"))

/-- Unit-price `or` chain of `fetch_dan_murphys` (scraper.py line 124). -/
def danmurphys_unit (pd : List (String × Json)) : Json :=
  pyOr (jget pd "UnitPrice") (jget pd "CupPrice")

/-- Price extraction of `fetch_dan_murphys` (scraper.py lines 112-127):
locate the price object, then pick total and unit prices through the
falsy-coalescing `or` chains and check `price_total is None`. -/
def danmurphys_extract (data : Json) : Except Err (Json × Json) :=
  match danmurphys_price_info data with
  | .error e => .error e
  | .ok price_info =>
    if !truthy price_info then
      .error (Err.valueError "Unable to locate price data for Dan Murphy\x27s response")
    else
      match price_info with
      | Json.obj pd =>
        if (danmurphys_total pd).isNull then
          .error (Err.valueError "Dan Murphy\x27s response missing price value")
        else .ok (danmurphys_total pd, danmurphys_unit pd)
      | _ => .error (Err.attributeError "object has no attribute get")

/-- `fetch_dan_murphys` (scraper.py lines 101-136). -/
def fetch_dan_murphys (ctx : Ctx) (pack : PackConfig) : Except Err Payload :=
  if !ostrTruthy pack.product_id then
    .error (Err.valueError "product_id required for Dan Murphy\x27s")
  else
    match ctx.http (danmurphys_request pack) with
    | .error e => .error e
    | .ok data =>
      match danmurphys_extract data with
      | .error e => .error e
      | .ok pu => finish_payload ctx.now pack.pack_size pu.1 pu.2

/-- Request built by `fetch_bws` (scraper.py lines 142-147). -/
def bws_request (pack : PackConfig) : Request :=
  { method := "GET"
  , url := "https://bws.com.au/api/products/" ++ pack.product_id.getD ""
  , headers := setdefault (setdefault (normalise_headers pack.headers)
      "Referer" "https://bws.com.au/") "Origin" "https://bws.com.au"
  , body := none }

/-- Total-price `or` chain of `fetch_bws` (scraper.py line 152); the
final alternative reads the top-level "price" field of the response. -/
def bws_total (dd pinfo : List (String × Json)) : Json :=
  pyOr (jget pinfo "current") (pyOr (jget pinfo "ActualPrice") (jget dd "price"))

/-- Unit-price `or` chain of `fetch_bws` (scraper.py line 153). -/
def bws_unit (pinfo : List (String × Json)) : Json :=
  pyOr (jget pinfo "perItem") (jget pinfo "CupPrice")

/-- Price extraction of `fetch_bws` (scraper.py lines 151-156).
`data.get` and `price_info.get` raise `AttributeError` on non-dict
receivers, as in Python. -/
def bws_extract (data : Json) : Except Err (Json × Json) :=
  match data with
  | Json.obj dd =>
    match pyOr (jget dd "price") (pyOr (jget dd "Price") (Json.obj [])) with
    | Json.obj pinfo =>
      if (bws_total dd pinfo).isNull then .error (Err.valueError "BWS response missing price")
      else .ok (bws_total dd pinfo, bws_unit pinfo)
    | _ => .error (Err.attributeError "object has no attribute get")
  | _ => .error (Err.attributeError "object has no attribute get")

/-- `fetch_bws` (scraper.py lines 139-165). -/
def fetch_bws (ctx : Ctx) (pack : PackConfig) : Except Err Payload :=
  if !ostrTruthy pack.product_id then
    .error (Err.valueError "product_id required for BWS")
  else
    match ctx.http (bws_request pack) with
    | .error e => .error e
    | .ok data =>
      match bws_extract data with
      | .error e => .error e
      | .ok pu => finish_payload ctx.now pack.pack_size pu.1 pu.2

/-- GraphQL query string of `fetch_liquorland_like` (scraper.py lines
179-186), concatenated exactly as in the source. -/
def LIQUORLAND_QUERY : String :=
  "query ProductPricing($id: String!) \x7b product(productId: $id) \x7b pricing \x7b current \x7d cupPrice \x7d\x7d"

/-- Brand branch of `fetch_liquorland_like` (scraper.py line 175): the
Origin constant is selected from the pack source key. -/
def liquorland_origin (pack : PackConfig) : String :=
  if pack.source = "first_choice" then "https://www.firstchoiceliquor.com.au"
  else "https://www.liquorland.com.au"

/-- Request built by `fetch_liquorland_like` (scraper.py lines 174-189). -/
def liquorland_request (pack : PackConfig) : Request :=
  { method := "POST"
  , url := "https://api.liquorland.com.au/graphql"
  , headers := setdefault (setdefault (normalise_headers pack.headers)
      "Origin" (liquorland_origin pack)) "Referer" (liquorland_origin pack ++ "/")
  , body := some (Json.obj [("query", Json.str LIQUORLAND_QUERY),
      ("variables", Json.obj [("id", Json.str (pack.product_id.getD ""))])]) }

/-- Price extraction of `fetch_liquorland_like` (scraper.py lines
193-201). -/
def liquorland_extract (data : Json) : Except Err (Json × Json) :=
  match extract_path data (some "data.product") with
  | .error e => .error e
  | .ok product =>
    if !truthy product then .error (Err.valueError "Liquorland API missing product node")
    else
      match extract_path product (some "pricing.current") with
      | .error e => .error e
      | .ok price_total =>
        match extract_path product (some "cupPrice") with
        | .error e => .error e
        | .ok unit_price =>
          if price_total.isNull then .error (Err.valueError "Liquorland API missing price")
          else .ok (price_total, unit_price)

/-- `fetch_liquorland_like` (scraper.py lines 168-210); Liquorland and
First Choice share this implementation. -/
def fetch_liquorland_like (ctx : Ctx) (pack : PackConfig) : Except Err Payload :=
  if !ostrTruthy pack.product_id then
    .error (Err.valueError "product_id required for Liquorland/First Choice")
  else
    match ctx.http (liquorland_request pack) with
    | .error e => .error e
    | .ok data =>
      match liquorland_extract data with
      | .error e => .error e
      | .ok pu => finish_payload ctx.now pack.pack_size pu.1 pu.2

/-- `os.getenv` results lifted into the value model. -/
def envJson : Option String → Json
  | none => Json.null
  | some s => Json.str s

/-- API-key resolution of `fetch_coles` (scraper.py line 214): the
configuration credential is consulted before the environment variable,
joined by Python `or`. -/
def coles_resolve_key (credentials : List (String × Json))
    (env : String → Option String) : Json :=
  pyOr (jget credentials "coles_api_key") (envJson (env "COLES_API_KEY"))

/-- Header values must be strings for `requests`; the claims only
exercise string credentials, so non-string values are rendered as "". -/
def headerValue : Json → String
  | Json.str s => s
  | _ => ""

/-- Request built by `fetch_coles` (scraper.py lines 220-224). -/
def coles_request (pack : PackConfig) (api_key : Json) : Request :=
  { method := "GET"
  , url := "https://api.coles.com.au/product/v1/productdetail/" ++ pack.product_id.getD ""
  , headers := dictSet (normalise_headers pack.headers)
      "Ocp-Apim-Subscription-Key" (headerValue api_key)
  , body := none }

/-- Total-price `or` chain of `fetch_coles` (scraper.py line 228): the
second `extract_path` alternative is evaluated only when the first is
falsy, as Python `or` short-circuits. -/
def coles_total (data : Json) : Except Err Json :=
  match extract_path data (some "product.price.current") with
  | .error e => .error e
  | .ok a => if truthy a then Except.ok a else extract_path data (some "productPrice.current")

/-- Unit-price `or` chain of `fetch_coles` (scraper.py line 229). -/
def coles_unit (data : Json) : Except Err Json :=
  match extract_path data (some "product.price.unit") with
  | .error e => .error e
  | .ok b => if truthy b then Except.ok b else extract_path data (some "productPrice.unit")

/-- Price extraction of `fetch_coles` (scraper.py lines 228-232). -/
def coles_extract (data : Json) : Except Err (Json × Json) :=
  match coles_total data with
  | .error e => .error e
  | .ok price_total =>
    match coles_unit data with
    | .error e => .error e
    | .ok unit_price =>
      if price_total.isNull then .error (Err.valueError "Coles response missing price")
      else .ok (price_total, unit_price)

/-- `fetch_coles` (scraper.py lines 213-241): the credential check comes
first, before the product-id check and before the HTTP call. -/
def fetch_coles (ctx : Ctx) (pack : PackConfig) : Except Err Payload :=
  let api_key := coles_resolve_key ctx.credentials ctx.env
  if !truthy api_key then
    .error (Err.valueError "Coles API key missing. Set COLES_API_KEY env var or config credential")
  else if !ostrTruthy pack.product_id then
    .error (Err.valueError "product_id required for Coles")
  else
    match ctx.http (coles_request pack api_key) with
    | .error e => .error e
    | .ok data =>
      match coles_extract data with
      | .error e => .error e
      | .ok pu => finish_payload ctx.now pack.pack_size pu.1 pu.2

/-- Request built by `fetch_woolworths` (scraper.py lines 248-250). -/
def woolworths_request (pack : PackConfig) : Request :=
  { method := "GET"
  , url := "https://www.woolworths.com.au/apis/ui/products/" ++ pack.product_id.getD ""
  , headers := normalise_headers pack.headers
  , body := none }

/-- FinalPrice/SalePrice `or` chain of `fetch_woolworths` (scraper.py
line 255): the SalePrice alternative is evaluated only when the
FinalPrice one is falsy. -/
def woolworths_total0 (product : Json) : Except Err Json :=
  match extract_path product (some "Price.FinalPrice") with
  | .error e => .error e
  | .ok a => if truthy a then Except.ok a else extract_path product (some "Price.SalePrice")

/-- Flat "Price" fallback of `fetch_woolworths` (scraper.py lines
258-259), applied when the chain produced `None` and the product node
is a dict. -/
def woolworths_fallback (product pt0 : Json) : Json :=
  if pt0.isNull then
    match product with
    | Json.obj kvs => jget kvs "Price"
    | _ => pt0
  else pt0

/-- Price extraction of `fetch_woolworths` (scraper.py lines 254-262):
the "ProductDetail" node or the root, the FinalPrice/SalePrice chain,
the unit lookup, then the flat "Price" fallback guarded by
`isinstance(product, dict)`. -/
def woolworths_extract (data : Json) : Except Err (Json × Json) :=
  match extract_path data (some "ProductDetail") with
  | .error e => .error e
  | .ok pd0 =>
    let product := pyOr pd0 data
    match woolworths_total0 product with
    | .error e => .error e
    | .ok pt0 =>
      match extract_path product (some "Price.CupPrice") with
      | .error e => .error e
      | .ok unit_price =>
        if (woolworths_fallback product pt0).isNull then
          .error (Err.valueError "Woolworths response missing price")
        else .ok (woolworths_fallback product pt0, unit_price)

/-- `fetch_woolworths` (scraper.py lines 244-271). -/
def fetch_woolworths (ctx : Ctx) (pack : PackConfig) : Except Err Payload :=
  if !ostrTruthy pack.product_id then
    .error (Err.valueError "product_id required for Woolworths")
  else
    match ctx.http (woolworths_request pack) with
    | .error e => .error e
    | .ok data =>
      match woolworths_extract data with
      | .error e => .error e
      | .ok pu => finish_payload ctx.now pack.pack_size pu.1 pu.2

/-- Uniform adapter signature.  In the source the orchestrator passes
`credentials` only to the Coles adapter; here every adapter receives the
ambient `Ctx` and all but `fetch_coles` ignore its credential fields,
which is observationally the same dispatch. -/
abbrev Fetcher := Ctx → PackConfig → Except Err Payload

/-- The `FETCHERS` registry (scraper.py lines 274-281). -/
def FETCHERS : String → Option Fetcher := fun source =>
  if source = "dan_murphys" then some fetch_dan_murphys
  else if source = "bws" then some fetch_bws
  else if source = "liquorland" then some fetch_liquorland_like
  else if source = "first_choice" then some fetch_liquorland_like
  else if source = "coles" then some fetch_coles
  else if source = "woolworths" then some fetch_woolworths
  else none

/-- Python banker's rounding (`round` ties to even) on an exact
rational. -/
def roundHalfEven (q : ℚ) : ℤ :=
  let f : ℤ := ⌊q⌋
  let r : ℚ := q - f
  if r < 1 / 2 then f
  else if 1 / 2 < r then f + 1
  else if f % 2 = 0 then f else f + 1

/-- Python `round(x, 2)` modelled on exact rationals. -/
def round2 (q : ℚ) : ℚ := (roundHalfEven (q * 100) : ℚ) / 100

/-- `build_entry` (scraper.py lines 290-299).  The adapters always stamp
`checked_at`, so the `payload.get` default branch is dead. -/
def build_entry (pack : PackConfig) (payload : Payload) : Entry :=
  { retailer := pack.retailer
  , suburb := pack.suburb
  , pack_size := pack.pack_size
  , price_total := round2 payload.price_total
  , price_unit := round2 payload.price_unit
  , url := pack.url
  , checked_at := payload.checked_at }

/-- Outcome of `main` (scraper.py lines 313-345) after configuration
loading: the accumulated entries, the artifact handed to `write_prices`
(`none` when persistence is never invoked), and the process exit code. -/
structure RunResult where
  entries : List Entry
  written : Option (List Entry)
  exit_code : Int
deriving DecidableEq, Repr

/-- The per-pack loop of `main` (scraper.py lines 324-337): unregistered
source keys are skipped, adapter failures of any kind are swallowed, and
successes are appended in configured order. -/
def run_packs (ctx : Ctx) : List PackConfig → List Entry
  | [] => []
  | pack :: rest =>
    match FETCHERS pack.source with
    | none => run_packs ctx rest
    | some fetch =>
      match fetch ctx pack with
      | .ok payload => build_entry pack payload :: run_packs ctx rest
      | .error _ => run_packs ctx rest

/-- `main` after configuration loading (scraper.py lines 316-345): exit
1 on an empty pack list, run the loop, exit 1 without writing when no
entries were collected, otherwise write the entries and exit 0. -/
def main_run (ctx : Ctx) (packs : List PackConfig) : RunResult :=
  if packs.isEmpty then ⟨[], none, 1⟩
  else
    let entries := run_packs ctx packs
    if entries.isEmpty then ⟨entries, none, 1⟩
    else ⟨entries, some entries, 0⟩

/-- Test context whose single-response HTTP oracle always returns `d`,
with empty credentials, an empty environment and time 0. -/
def mkCtx (d : Json) : Ctx := ⟨fun _ => .ok d, [], fun _ => none, 0⟩

def dmData : Json := Json.obj [("Price", Json.obj [("FinalPrice", Json.num 24)])]

def packDM : PackConfig :=
  ⟨"Dan Murphy\x27s", "", 12, "", "dan_murphys", some "123", none, none, none⟩

def packDM0 : PackConfig :=
  ⟨"Dan Murphy\x27s", "", 0, "", "dan_murphys", some "123", none, none, none⟩

def packDM1 : PackConfig :=
  ⟨"Dan Murphy\x27s", "", 1, "", "dan_murphys", some "123", none, none, none⟩

def packDM2 : PackConfig :=
  ⟨"Dan Murphy\x27s", "", 2, "", "dan_murphys", some "123", none, none, none⟩

def dmZeroLast : Json := Json.obj [("Price", Json.obj [("SalePrice", Json.num 0)])]

def dmZeroSkip : Json :=
  Json.obj [("Price", Json.obj [("FinalPrice", Json.num 0), ("Price", Json.num 7)])]

def dmUnitZeroSkip : Json :=
  Json.obj [("Price", Json.obj [("FinalPrice", Json.num 10), ("UnitPrice", Json.num 0)])]

def dmUnitZeroLast : Json :=
  Json.obj [("Price", Json.obj [("FinalPrice", Json.num 10), ("CupPrice", Json.num 0)])]

def dmNoPrices : Json := Json.obj [("Price", Json.obj [("Taste", Json.num 3)])]

def bwsZero : Json := Json.obj [("price", Json.num 0)]

def packBWS1 : PackConfig := ⟨"BWS", "", 1, "", "bws", some "9", none, none, none⟩

def packWW1 : PackConfig := ⟨"Woolworths", "", 1, "", "woolworths", some "7", none, none, none⟩

def packNope : PackConfig := ⟨"Mystery", "", 4, "", "nope", none, none, none, none⟩

def packNoId : PackConfig :=
  ⟨"Dan Murphy\x27s", "", 24, "", "dan_murphys", none, none, none, none⟩

def bwsData : Json :=
  Json.obj [("price", Json.obj [("current", Json.num 12), ("perItem", Json.num 2)])]

def packBWS : PackConfig :=
  ⟨"BWS", "Richmond", 6, "https://bws.example", "bws", some "42", none, none, none⟩

def packColes : PackConfig := ⟨"Coles", "", 4, "", "coles", some "555", none, none, none⟩

def packFC : PackConfig :=
  ⟨"First Choice", "", 24, "", "first_choice", some "fc1", none, none, none⟩

def packLL : PackConfig :=
  ⟨"Liquorland", "", 24, "", "liquorland", some "ll1", none, none, none⟩

theorem finish_payload_derive (now : ℤ) (ps : Int) (q : ℚ) (h : ps ≠ 0) :
    finish_payload now ps (Json.num q) Json.null = .ok ⟨q, q / (ps : ℚ), now⟩ := by
  simp [finish_payload, Json.isNull, pyFloat, Except.map, h]

theorem finish_payload_zero (now : ℤ) (q : ℚ) :
    finish_payload now 0 (Json.num q) Json.null = .error (Err.typeError floatNoneMsg) := by
  simp [finish_payload, Json.isNull, pyFloat]

theorem fetch_dan_murphys_ok (ctx : Ctx) (pack : PackConfig) (data : Json) (q : ℚ)
    (h1 : ostrTruthy pack.product_id = true)
    (h2 : ctx.http (danmurphys_request pack) = .ok data)
    (h3 : danmurphys_extract data = .ok (Json.num q, Json.null))
    (hps : pack.pack_size ≠ 0) :
    fetch_dan_murphys ctx pack = .ok ⟨q, q / (pack.pack_size : ℚ), ctx.now⟩ := by
  simp [fetch_dan_murphys, h1, h2, h3]
  exact finish_payload_derive ctx.now pack.pack_size q hps

theorem fetch_bws_ok (ctx : Ctx) (pack : PackConfig) (data : Json) (q : ℚ)
    (h1 : ostrTruthy pack.product_id = true)
    (h2 : ctx.http (bws_request pack) = .ok data)
    (h3 : bws_extract data = .ok (Json.num q, Json.null))
    (hps : pack.pack_size ≠ 0) :
    fetch_bws ctx pack = .ok ⟨q, q / (pack.pack_size : ℚ), ctx.now⟩ := by
  simp [fetch_bws, h1, h2, h3]
  exact finish_payload_derive ctx.now pack.pack_size q hps

theorem fetch_woolworths_ok (ctx : Ctx) (pack : PackConfig) (data : Json) (q : ℚ)
    (h1 : ostrTruthy pack.product_id = true)
    (h2 : ctx.http (woolworths_request pack) = .ok data)
    (h3 : woolworths_extract data = .ok (Json.num q, Json.null))
    (hps : pack.pack_size ≠ 0) :
    fetch_woolworths ctx pack = .ok ⟨q, q / (pack.pack_size : ℚ), ctx.now⟩ := by
  simp [fetch_woolworths, h1, h2, h3]
  exact finish_payload_derive ctx.now pack.pack_size q hps

theorem fetch_liquorland_ok (ctx : Ctx) (pack : PackConfig) (data : Json) (q : ℚ)
    (h1 : ostrTruthy pack.product_id = true)
    (h2 : ctx.http (liquorland_request pack) = .ok data)
    (h3 : liquorland_extract data = .ok (Json.num q, Json.null))
    (hps : pack.pack_size ≠ 0) :
    fetch_liquorland_like ctx pack = .ok ⟨q, q / (pack.pack_size : ℚ), ctx.now⟩ := by
  simp [fetch_liquorland_like, h1, h2, h3]
  exact finish_payload_derive ctx.now pack.pack_size q hps

theorem fetch_coles_ok (ctx : Ctx) (pack : PackConfig) (data : Json) (q : ℚ)
    (hk : truthy (coles_resolve_key ctx.credentials ctx.env) = true)
    (h1 : ostrTruthy pack.product_id = true)
    (h2 : ctx.http (coles_request pack (coles_resolve_key ctx.credentials ctx.env)) = .ok data)
    (h3 : coles_extract data = .ok (Json.num q, Json.null))
    (hps : pack.pack_size ≠ 0) :
    fetch_coles ctx pack = .ok ⟨q, q / (pack.pack_size : ℚ), ctx.now⟩ := by
  simp [fetch_coles, hk, h1, h2, h3]
  exact finish_payload_derive ctx.now pack.pack_size q hps

theorem finish_payload_keep (now : ℤ) (ps : Int) (q u : ℚ) :
    finish_payload now ps (Json.num q) (Json.num u) = .ok ⟨q, u, now⟩ := by
  simp [finish_payload, Json.isNull, pyFloat]

/-- C3: the claim says the Path Extractor never raises, absence being
its only failure signal; but on `extract_path([1, 2], "-5")` the
segment parses as the negative index -5, passes the `idx >= len(current)`
guard, and Python list indexing raises `IndexError`.  This theorem
evaluates the embedded code at that failing input. -/
theorem extract_path_negative_raise :
    extract_path (Json.arr [Json.num 1, Json.num 2]) (some "-5")
      = .error (Err.indexError "list index out of range") := rfl

/-- C4 counterexample: the claim requires any segment that is not a
non-negative in-bounds integer to yield absent, but the segment "-1"
parses as the negative index -1 and the extractor returns the last
element of the sequence instead of absent. -/
theorem extract_path_negative_counterexample :
    extract_path (Json.arr [Json.num 7]) (some "-1") = .ok (Json.num 7)
    ∧ pyInt "-1" = some (-1) := ⟨rfl, rfl⟩

/-- C4 (amended): at a sequence value, a segment that does not parse as
an integer yields absent, a segment parsing as an integer at least the
sequence length yields absent, and a segment parsing as a negative
integer that is in bounds from the end steps into the corresponding
element (Python negative indexing) rather than yielding absent. -/
theorem extract_path_seq_step (xs : List Json) (part : String) (rest : List String) :
    (pyInt part = none → extract_path_go (part :: rest) (Json.arr xs) = .ok Json.null)
    ∧ (∀ i : Int, pyInt part = some i → (xs.length : Int) ≤ i →
        extract_path_go (part :: rest) (Json.arr xs) = .ok Json.null)
    ∧ (∀ i : Int, pyInt part = some i → i < 0 → 0 ≤ i + (xs.length : Int) →
        extract_path_go (part :: rest) (Json.arr xs)
          = extract_path_go rest (xs.getD (i + (xs.length : Int)).toNat Json.null)) := by
  refine ⟨?_, ?_, ?_⟩
  · intro h
    simp [extract_path_go, h]
  · intro i hi hle
    simp [extract_path_go, hi, hle]
  · intro i hi hneg hnn
    have hlt : ¬ ((xs.length : Int) ≤ i) := by omega
    simp [extract_path_go, hi, hlt, hneg, hnn]

theorem extract_path_seq_step_witness :
    extract_path_go ["-1"] (Json.arr [Json.num 7]) = .ok (Json.num 7) := by
  have h := (extract_path_seq_step [Json.num 7] "-1" []).2.2 (-1) rfl (by decide) (by decide)
  rw [h]
  rfl

/-- C1: for every adapter, when the response yields a total price `q`
but no explicit unit price (the adapter's extraction produces
`(num q, null)`) and the pack size is positive, the returned payload
carries `price_unit = q / pack_size` (and `price_total = q`). -/
theorem unit_price_fallback :
    (∀ (ctx : Ctx) (pack : PackConfig) (data : Json) (q : ℚ),
        ostrTruthy pack.product_id = true →
        ctx.http (danmurphys_request pack) = .ok data →
        danmurphys_extract data = .ok (Json.num q, Json.null) →
        0 < pack.pack_size →
        fetch_dan_murphys ctx pack = .ok ⟨q, q / (pack.pack_size : ℚ), ctx.now⟩)
    ∧ (∀ (ctx : Ctx) (pack : PackConfig) (data : Json) (q : ℚ),
        ostrTruthy pack.product_id = true →
        ctx.http (bws_request pack) = .ok data →
        bws_extract data = .ok (Json.num q, Json.null) →
        0 < pack.pack_size →
        fetch_bws ctx pack = .ok ⟨q, q / (pack.pack_size : ℚ), ctx.now⟩)
    ∧ (∀ (ctx : Ctx) (pack : PackConfig) (data : Json) (q : ℚ),
        ostrTruthy pack.product_id = true →
        ctx.http (liquorland_request pack) = .ok data →
        liquorland_extract data = .ok (Json.num q, Json.null) →
        0 < pack.pack_size →
        fetch_liquorland_like ctx pack = .ok ⟨q, q / (pack.pack_size : ℚ), ctx.now⟩)
    ∧ (∀ (ctx : Ctx) (pack : PackConfig) (data : Json) (q : ℚ),
        truthy (coles_resolve_key ctx.credentials ctx.env) = true →
        ostrTruthy pack.product_id = true →
        ctx.http (coles_request pack (coles_resolve_key ctx.credentials ctx.env)) = .ok data →
        coles_extract data = .ok (Json.num q, Json.null) →
        0 < pack.pack_size →
        fetch_coles ctx pack = .ok ⟨q, q / (pack.pack_size : ℚ), ctx.now⟩)
    ∧ (∀ (ctx : Ctx) (pack : PackConfig) (data : Json) (q : ℚ),
        ostrTruthy pack.product_id = true →
        ctx.http (woolworths_request pack) = .ok data →
        woolworths_extract data = .ok (Json.num q, Json.null) →
        0 < pack.pack_size →
        fetch_woolworths ctx pack = .ok ⟨q, q / (pack.pack_size : ℚ), ctx.now⟩) := by
  refine ⟨?_, ?_, ?_, ?_, ?_⟩
  · intro ctx pack data q h1 h2 h3 hps
    simp [fetch_dan_murphys, h1, h2, h3]
    exact finish_payload_derive ctx.now pack.pack_size q (by omega)
  · intro ctx pack data q h1 h2 h3 hps
    simp [fetch_bws, h1, h2, h3]
    exact finish_payload_derive ctx.now pack.pack_size q (by omega)
  · intro ctx pack data q h1 h2 h3 hps
    simp [fetch_liquorland_like, h1, h2, h3]
    exact finish_payload_derive ctx.now pack.pack_size q (by omega)
  · intro ctx pack data q hk h1 h2 h3 hps
    simp [fetch_coles, hk, h1, h2, h3]
    exact finish_payload_derive ctx.now pack.pack_size q (by omega)
  · intro ctx pack data q h1 h2 h3 hps
    simp [fetch_woolworths, h1, h2, h3]
    exact finish_payload_derive ctx.now pack.pack_size q (by omega)

theorem unit_price_fallback_witness :
    fetch_dan_murphys (mkCtx dmData) packDM = .ok ⟨24, 2, 0⟩ := by
  have h := unit_price_fallback.1 (mkCtx dmData) packDM dmData 24 rfl rfl rfl (by decide)
  rw [h]
  norm_num [packDM, mkCtx]

/-- C2 counterexample: with pack size 0, a total price present and no
unit price, the Dan Murphy adapter does fail, but with the `TypeError`
from `float(None)`, which is not the missing-price `ValueError` the
claim names. -/
theorem pack_size_zero_counterexample :
    fetch_dan_murphys (mkCtx dmData) packDM0 = .error (Err.typeError floatNoneMsg)
    ∧ Err.typeError floatNoneMsg
        ≠ Err.valueError "Dan Murphy\x27s response missing price value" :=
  ⟨rfl, by decide⟩

/-- C2 (amended): for every adapter, if the pack size is 0 and the
response supplies a total price but no unit price, the fetch fails -
but with the `TypeError` raised when `float` is applied to the absent
(`None`) unit price, not with a descriptive missing-price error. -/
theorem pack_size_zero_type_error :
    (∀ (ctx : Ctx) (pack : PackConfig) (data : Json) (q : ℚ),
        ostrTruthy pack.product_id = true →
        ctx.http (danmurphys_request pack) = .ok data →
        danmurphys_extract data = .ok (Json.num q, Json.null) →
        pack.pack_size = 0 →
        fetch_dan_murphys ctx pack = .error (Err.typeError floatNoneMsg))
    ∧ (∀ (ctx : Ctx) (pack : PackConfig) (data : Json) (q : ℚ),
        ostrTruthy pack.product_id = true →
        ctx.http (bws_request pack) = .ok data →
        bws_extract data = .ok (Json.num q, Json.null) →
        pack.pack_size = 0 →
        fetch_bws ctx pack = .error (Err.typeError floatNoneMsg))
    ∧ (∀ (ctx : Ctx) (pack : PackConfig) (data : Json) (q : ℚ),
        ostrTruthy pack.product_id = true →
        ctx.http (liquorland_request pack) = .ok data →
        liquorland_extract data = .ok (Json.num q, Json.null) →
        pack.pack_size = 0 →
        fetch_liquorland_like ctx pack = .error (Err.typeError floatNoneMsg))
    ∧ (∀ (ctx : Ctx) (pack : PackConfig) (data : Json) (q : ℚ),
        truthy (coles_resolve_key ctx.credentials ctx.env) = true →
        ostrTruthy pack.product_id = true →
        ctx.http (coles_request pack (coles_resolve_key ctx.credentials ctx.env)) = .ok data →
        coles_extract data = .ok (Json.num q, Json.null) →
        pack.pack_size = 0 →
        fetch_coles ctx pack = .error (Err.typeError floatNoneMsg))
    ∧ (∀ (ctx : Ctx) (pack : PackConfig) (data : Json) (q : ℚ),
        ostrTruthy pack.product_id = true →
        ctx.http (woolworths_request pack) = .ok data →
        woolworths_extract data = .ok (Json.num q, Json.null) →
        pack.pack_size = 0 →
        fetch_woolworths ctx pack = .error (Err.typeError floatNoneMsg)) := by
  refine ⟨?_, ?_, ?_, ?_, ?_⟩
  · intro ctx pack data q h1 h2 h3 hps
    simp [fetch_dan_murphys, h1, h2, h3, hps]
    exact finish_payload_zero ctx.now q
  · intro ctx pack data q h1 h2 h3 hps
    simp [fetch_bws, h1, h2, h3, hps]
    exact finish_payload_zero ctx.now q
  · intro ctx pack data q h1 h2 h3 hps
    simp [fetch_liquorland_like, h1, h2, h3, hps]
    exact finish_payload_zero ctx.now q
  · intro ctx pack data q hk h1 h2 h3 hps
    simp [fetch_coles, hk, h1, h2, h3, hps]
    exact finish_payload_zero ctx.now q
  · intro ctx pack data q h1 h2 h3 hps
    simp [fetch_woolworths, h1, h2, h3, hps]
    exact finish_payload_zero ctx.now q

theorem pack_size_zero_type_error_witness :
    fetch_dan_murphys (mkCtx dmData) packDM0 = .error (Err.typeError floatNoneMsg) :=
  pack_size_zero_type_error.1 (mkCtx dmData) packDM0 dmData 24 rfl rfl rfl rfl

/-- C10 counterexample: a total price of 0 in the final alternative of
the `or` chain is kept, so the Dan Murphy adapter returns a zero-priced
payload instead of raising the missing-price error; and a unit price of
0 in the final alternative is kept rather than discarded in favour of
the derived fallback (which would be 10 / 2 = 5). -/
theorem zero_price_counterexample :
    fetch_dan_murphys (mkCtx dmZeroLast) packDM1 = .ok ⟨0, 0, 0⟩
    ∧ fetch_dan_murphys (mkCtx dmUnitZeroLast) packDM2 = .ok ⟨10, 0, 0⟩ := by
  constructor
  · have h := fetch_dan_murphys_ok (mkCtx dmZeroLast) packDM1 dmZeroLast 0 rfl rfl rfl (by decide)
    rw [h]
    norm_num [packDM1, mkCtx]
  · rfl

/-- C10 (amended): for every adapter, the price fields are selected
with falsy-coalescing `or` chains (`pyOr`), and a zero is treated as
absent only in non-final positions of a chain.  Conjuncts, universally
quantified throughout: (i) `pyOr` skips a zero left operand and keeps a
zero right operand when the left is falsy; (ii) per adapter, a zero in
a non-final alternative of the total or unit chain is skipped in
favour of the remaining alternatives; (iii) per adapter, the extraction
raises the adapter missing-price error exactly when the value the
total-price chain produces is `None` - in particular a final-alternative
zero total is kept and extraction succeeds; (iv) per adapter, a kept
zero total gives a zero-priced payload rather than an error, a kept
numeric (in particular zero) unit price is returned as-is instead of
the derived fallback, and the derived fallback applies only when the
whole unit chain yielded `None`. -/
theorem zero_price_or_chain :
    (∀ b : Json, pyOr (Json.num 0) b = b)
    ∧ (∀ a : Json, truthy a = false → pyOr a (Json.num 0) = Json.num 0)
    ∧ ((∀ pd : List (String × Json), jget pd "FinalPrice" = Json.num 0 →
          danmurphys_total pd = pyOr (jget pd "Price") (jget pd "SalePrice"))
      ∧ (∀ pd : List (String × Json), jget pd "UnitPrice" = Json.num 0 →
          danmurphys_unit pd = jget pd "CupPrice")
      ∧ (∀ (data : Json) (pd : List (String × Json)),
          danmurphys_price_info data = .ok (Json.obj pd) →
          truthy (Json.obj pd) = true →
          danmurphys_extract data
            = if (danmurphys_total pd).isNull
              then .error (Err.valueError "Dan Murphy\x27s response missing price value")
              else .ok (danmurphys_total pd, danmurphys_unit pd))
      ∧ (∀ (ctx : Ctx) (pack : PackConfig) (data : Json),
          ostrTruthy pack.product_id = true →
          ctx.http (danmurphys_request pack) = .ok data →
          danmurphys_extract data = .ok (Json.num 0, Json.null) →
          pack.pack_size ≠ 0 →
          fetch_dan_murphys ctx pack = .ok ⟨0, 0, ctx.now⟩)
      ∧ (∀ (ctx : Ctx) (pack : PackConfig) (data : Json) (q u : ℚ),
          ostrTruthy pack.product_id = true →
          ctx.http (danmurphys_request pack) = .ok data →
          danmurphys_extract data = .ok (Json.num q, Json.num u) →
          fetch_dan_murphys ctx pack = .ok ⟨q, u, ctx.now⟩)
      ∧ (∀ (ctx : Ctx) (pack : PackConfig) (data : Json) (q : ℚ),
          ostrTruthy pack.product_id = true →
          ctx.http (danmurphys_request pack) = .ok data →
          danmurphys_extract data = .ok (Json.num q, Json.null) →
          pack.pack_size ≠ 0 →
          fetch_dan_murphys ctx pack = .ok ⟨q, q / (pack.pack_size : ℚ), ctx.now⟩))
    ∧ ((∀ dd pinfo : List (String × Json), jget pinfo "current" = Json.num 0 →
          bws_total dd pinfo = pyOr (jget pinfo "ActualPrice") (jget dd "price"))
      ∧ (∀ pinfo : List (String × Json), jget pinfo "perItem" = Json.num 0 →
          bws_unit pinfo = jget pinfo "CupPrice")
      ∧ (∀ dd pinfo : List (String × Json),
          pyOr (jget dd "price") (pyOr (jget dd "Price") (Json.obj [])) = Json.obj pinfo →
          bws_extract (Json.obj dd)
            = if (bws_total dd pinfo).isNull
              then .error (Err.valueError "BWS response missing price")
              else .ok (bws_total dd pinfo, bws_unit pinfo))
      ∧ (∀ (ctx : Ctx) (pack : PackConfig) (data : Json),
          ostrTruthy pack.product_id = true →
          ctx.http (bws_request pack) = .ok data →
          bws_extract data = .ok (Json.num 0, Json.null) →
          pack.pack_size ≠ 0 →
          fetch_bws ctx pack = .ok ⟨0, 0, ctx.now⟩)
      ∧ (∀ (ctx : Ctx) (pack : PackConfig) (data : Json) (q u : ℚ),
          ostrTruthy pack.product_id = true →
          ctx.http (bws_request pack) = .ok data →
          bws_extract data = .ok (Json.num q, Json.num u) →
          fetch_bws ctx pack = .ok ⟨q, u, ctx.now⟩)
      ∧ (∀ (ctx : Ctx) (pack : PackConfig) (data : Json) (q : ℚ),
          ostrTruthy pack.product_id = true →
          ctx.http (bws_request pack) = .ok data →
          bws_extract data = .ok (Json.num q, Json.null) →
          pack.pack_size ≠ 0 →
          fetch_bws ctx pack = .ok ⟨q, q / (pack.pack_size : ℚ), ctx.now⟩))
    ∧ ((∀ data product pt up : Json,
          extract_path data (some "data.product") = .ok product →
          truthy product = true →
          extract_path product (some "pricing.current") = .ok pt →
          extract_path product (some "cupPrice") = .ok up →
          liquorland_extract data
            = if pt.isNull then .error (Err.valueError "Liquorland API missing price")
              else .ok (pt, up))
      ∧ (∀ (ctx : Ctx) (pack : PackConfig) (data : Json),
          ostrTruthy pack.product_id = true →
          ctx.http (liquorland_request pack) = .ok data →
          liquorland_extract data = .ok (Json.num 0, Json.null) →
          pack.pack_size ≠ 0 →
          fetch_liquorland_like ctx pack = .ok ⟨0, 0, ctx.now⟩)
      ∧ (∀ (ctx : Ctx) (pack : PackConfig) (data : Json) (q u : ℚ),
          ostrTruthy pack.product_id = true →
          ctx.http (liquorland_request pack) = .ok data →
          liquorland_extract data = .ok (Json.num q, Json.num u) →
          fetch_liquorland_like ctx pack = .ok ⟨q, u, ctx.now⟩)
      ∧ (∀ (ctx : Ctx) (pack : PackConfig) (data : Json) (q : ℚ),
          ostrTruthy pack.product_id = true →
          ctx.http (liquorland_request pack) = .ok data →
          liquorland_extract data = .ok (Json.num q, Json.null) →
          pack.pack_size ≠ 0 →
          fetch_liquorland_like ctx pack = .ok ⟨q, q / (pack.pack_size : ℚ), ctx.now⟩))
    ∧ ((∀ data : Json,
          extract_path data (some "product.price.current") = .ok (Json.num 0) →
          coles_total data = extract_path data (some "productPrice.current"))
      ∧ (∀ data : Json,
          extract_path data (some "product.price.unit") = .ok (Json.num 0) →
          coles_unit data = extract_path data (some "productPrice.unit"))
      ∧ (∀ data pt up : Json,
          coles_total data = .ok pt → coles_unit data = .ok up →
          coles_extract data
            = if pt.isNull then .error (Err.valueError "Coles response missing price")
              else .ok (pt, up))
      ∧ (∀ (ctx : Ctx) (pack : PackConfig) (data : Json),
          truthy (coles_resolve_key ctx.credentials ctx.env) = true →
          ostrTruthy pack.product_id = true →
          ctx.http (coles_request pack (coles_resolve_key ctx.credentials ctx.env)) = .ok data →
          coles_extract data = .ok (Json.num 0, Json.null) →
          pack.pack_size ≠ 0 →
          fetch_coles ctx pack = .ok ⟨0, 0, ctx.now⟩)
      ∧ (∀ (ctx : Ctx) (pack : PackConfig) (data : Json) (q u : ℚ),
          truthy (coles_resolve_key ctx.credentials ctx.env) = true →
          ostrTruthy pack.product_id = true →
          ctx.http (coles_request pack (coles_resolve_key ctx.credentials ctx.env)) = .ok data →
          coles_extract data = .ok (Json.num q, Json.num u) →
          fetch_coles ctx pack = .ok ⟨q, u, ctx.now⟩)
      ∧ (∀ (ctx : Ctx) (pack : PackConfig) (data : Json) (q : ℚ),
          truthy (coles_resolve_key ctx.credentials ctx.env) = true →
          ostrTruthy pack.product_id = true →
          ctx.http (coles_request pack (coles_resolve_key ctx.credentials ctx.env)) = .ok data →
          coles_extract data = .ok (Json.num q, Json.null) →
          pack.pack_size ≠ 0 →
          fetch_coles ctx pack = .ok ⟨q, q / (pack.pack_size : ℚ), ctx.now⟩))
    ∧ ((∀ product : Json,
          extract_path product (some "Price.FinalPrice") = .ok (Json.num 0) →
          woolworths_total0 product = extract_path product (some "Price.SalePrice"))
      ∧ (∀ data pd0 pt0 up : Json,
          extract_path data (some "ProductDetail") = .ok pd0 →
          woolworths_total0 (pyOr pd0 data) = .ok pt0 →
          extract_path (pyOr pd0 data) (some "Price.CupPrice") = .ok up →
          woolworths_extract data
            = if (woolworths_fallback (pyOr pd0 data) pt0).isNull
              then .error (Err.valueError "Woolworths response missing price")
              else .ok (woolworths_fallback (pyOr pd0 data) pt0, up))
      ∧ (∀ (ctx : Ctx) (pack : PackConfig) (data : Json),
          ostrTruthy pack.product_id = true →
          ctx.http (woolworths_request pack) = .ok data →
          woolworths_extract data = .ok (Json.num 0, Json.null) →
          pack.pack_size ≠ 0 →
          fetch_woolworths ctx pack = .ok ⟨0, 0, ctx.now⟩)
      ∧ (∀ (ctx : Ctx) (pack : PackConfig) (data : Json) (q u : ℚ),
          ostrTruthy pack.product_id = true →
          ctx.http (woolworths_request pack) = .ok data →
          woolworths_extract data = .ok (Json.num q, Json.num u) →
          fetch_woolworths ctx pack = .ok ⟨q, u, ctx.now⟩)
      ∧ (∀ (ctx : Ctx) (pack : PackConfig) (data : Json) (q : ℚ),
          ostrTruthy pack.product_id = true →
          ctx.http (woolworths_request pack) = .ok data →
          woolworths_extract data = .ok (Json.num q, Json.null) →
          pack.pack_size ≠ 0 →
          fetch_woolworths ctx pack = .ok ⟨q, q / (pack.pack_size : ℚ), ctx.now⟩)) := by
  refine ⟨?_, ?_,
    ⟨?_, ?_, ?_, ?_, ?_, ?_⟩,
    ⟨?_, ?_, ?_, ?_, ?_, ?_⟩,
    ⟨?_, ?_, ?_, ?_⟩,
    ⟨?_, ?_, ?_, ?_, ?_, ?_⟩,
    ⟨?_, ?_, ?_, ?_, ?_⟩⟩
  · intro b
    simp [pyOr, truthy]
  · intro a h
    simp [pyOr, h]
  · intro pd h
    simp [danmurphys_total, h, pyOr, truthy]
  · intro pd h
    simp [danmurphys_unit, h, pyOr, truthy]
  · intro data pd h1 h2
    simp [danmurphys_extract, h1, h2]
  · intro ctx pack data h1 h2 h3 hps
    rw [fetch_dan_murphys_ok ctx pack data 0 h1 h2 h3 hps]
    simp
  · intro ctx pack data q u h1 h2 h3
    simp [fetch_dan_murphys, h1, h2, h3]
    exact finish_payload_keep ctx.now pack.pack_size q u
  · intro ctx pack data q h1 h2 h3 hps
    exact fetch_dan_murphys_ok ctx pack data q h1 h2 h3 hps
  · intro dd pinfo h
    simp [bws_total, h, pyOr, truthy]
  · intro pinfo h
    simp [bws_unit, h, pyOr, truthy]
  · intro dd pinfo hp
    simp [bws_extract, hp]
  · intro ctx pack data h1 h2 h3 hps
    rw [fetch_bws_ok ctx pack data 0 h1 h2 h3 hps]
    simp
  · intro ctx pack data q u h1 h2 h3
    simp [fetch_bws, h1, h2, h3]
    exact finish_payload_keep ctx.now pack.pack_size q u
  · intro ctx pack data q h1 h2 h3 hps
    exact fetch_bws_ok ctx pack data q h1 h2 h3 hps
  · intro data product pt up h1 h2 h3 h4
    simp [liquorland_extract, h1, h2, h3, h4]
  · intro ctx pack data h1 h2 h3 hps
    rw [fetch_liquorland_ok ctx pack data 0 h1 h2 h3 hps]
    simp
  · intro ctx pack data q u h1 h2 h3
    simp [fetch_liquorland_like, h1, h2, h3]
    exact finish_payload_keep ctx.now pack.pack_size q u
  · intro ctx pack data q h1 h2 h3 hps
    exact fetch_liquorland_ok ctx pack data q h1 h2 h3 hps
  · intro data h
    simp [coles_total, h, truthy]
  · intro data h
    simp [coles_unit, h, truthy]
  · intro data pt up h1 h2
    simp [coles_extract, h1, h2]
  · intro ctx pack data hk h1 h2 h3 hps
    rw [fetch_coles_ok ctx pack data 0 hk h1 h2 h3 hps]
    simp
  · intro ctx pack data q u hk h1 h2 h3
    simp [fetch_coles, hk, h1, h2, h3]
    exact finish_payload_keep ctx.now pack.pack_size q u
  · intro ctx pack data q hk h1 h2 h3 hps
    exact fetch_coles_ok ctx pack data q hk h1 h2 h3 hps
  · intro product h
    simp [woolworths_total0, h, truthy]
  · intro data pd0 pt0 up h1 h2 h3
    simp [woolworths_extract, h1, h2, h3]
  · intro ctx pack data h1 h2 h3 hps
    rw [fetch_woolworths_ok ctx pack data 0 h1 h2 h3 hps]
    simp
  · intro ctx pack data q u h1 h2 h3
    simp [fetch_woolworths, h1, h2, h3]
    exact finish_payload_keep ctx.now pack.pack_size q u
  · intro ctx pack data q h1 h2 h3 hps
    exact fetch_woolworths_ok ctx pack data q h1 h2 h3 hps

theorem zero_price_or_chain_witness :
    fetch_dan_murphys (mkCtx dmZeroLast) packDM1 = .ok ⟨0, 0, 0⟩ := by
  obtain ⟨-, -, ⟨-, -, -, hz, -, -⟩, -⟩ := zero_price_or_chain
  exact hz (mkCtx dmZeroLast) packDM1 dmZeroLast rfl rfl rfl (by decide)

/-- C5: with three configured packs - one whose source key is not in
the registry, one whose adapter raises, one whose adapter succeeds -
the run produces exactly the one successful record, in configured
order, and exits 0. -/
theorem orchestrator_mixed_run (ctx : Ctx) (p1 p2 p3 : PackConfig)
    (f2 f3 : Fetcher) (e : Err) (y : Payload)
    (h1 : FETCHERS p1.source = none)
    (h2 : FETCHERS p2.source = some f2) (h2e : f2 ctx p2 = .error e)
    (h3 : FETCHERS p3.source = some f3) (h3y : f3 ctx p3 = .ok y) :
    main_run ctx [p1, p2, p3] = ⟨[build_entry p3 y], some [build_entry p3 y], 0⟩ := by
  have hrun : run_packs ctx [p1, p2, p3] = [build_entry p3 y] := by
    simp [run_packs, h1, h2, h2e, h3, h3y]
  simp [main_run, hrun]

theorem orchestrator_mixed_run_witness :
    main_run (mkCtx bwsData) [packNope, packNoId, packBWS]
      = ⟨[build_entry packBWS ⟨12, 2, 0⟩], some [build_entry packBWS ⟨12, 2, 0⟩], 0⟩ :=
  orchestrator_mixed_run (mkCtx bwsData) packNope packNoId packBWS
    fetch_dan_murphys fetch_bws
    (Err.valueError "product_id required for Dan Murphy\x27s") ⟨12, 2, 0⟩
    rfl rfl rfl rfl rfl

/-- C6: when the pack loop collects zero records the run exits 1 and
persistence is never invoked; and whenever persistence is invoked, the
written list is exactly the full loop's nonempty result. -/
theorem no_records_no_write (ctx : Ctx) (packs : List PackConfig) :
    (run_packs ctx packs = [] → main_run ctx packs = ⟨[], none, 1⟩)
    ∧ (∀ l, (main_run ctx packs).written = some l → l ≠ [] ∧ l = run_packs ctx packs) := by
  constructor
  · intro h
    cases packs with
    | nil => rfl
    | cons p ps => simp [main_run, h]
  · intro l hl
    cases packs with
    | nil => simp [main_run] at hl
    | cons p ps =>
      by_cases he : run_packs ctx (p :: ps) = []
      · simp [main_run, he] at hl
      · simp [main_run, he] at hl
        exact ⟨hl ▸ he, hl.symm⟩

theorem no_records_no_write_witness :
    main_run (mkCtx Json.null) [packNoId] = ⟨[], none, 1⟩ :=
  (no_records_no_write (mkCtx Json.null) [packNoId]).1 rfl

/-- C7: with no `coles_api_key` credential in configuration and
`COLES_API_KEY` unset, the Coles fetch fails with the credential-missing
error for every HTTP oracle (so before any network call); and when a
truthy configuration credential is present, it takes precedence over
the environment variable. -/
theorem coles_credential_gate :
    (∀ (ctx : Ctx) (pack : PackConfig),
        jget ctx.credentials "coles_api_key" = Json.null →
        ctx.env "COLES_API_KEY" = none →
        fetch_coles ctx pack
          = .error (Err.valueError "Coles API key missing. Set COLES_API_KEY env var or config credential"))
    ∧ (∀ (credentials : List (String × Json)) (env : String → Option String) (k : String),
        k ≠ "" → jget credentials "coles_api_key" = Json.str k →
        coles_resolve_key credentials env = Json.str k) := by
  constructor
  · intro ctx pack h1 h2
    simp [fetch_coles, coles_resolve_key, h1, h2, envJson, pyOr, truthy]
  · intro credentials env k hk h
    simp [coles_resolve_key, pyOr, h, truthy, hk]

theorem coles_credential_gate_witness :
    fetch_coles (mkCtx Json.null) packColes
      = .error (Err.valueError "Coles API key missing. Set COLES_API_KEY env var or config credential")
    ∧ coles_resolve_key [("coles_api_key", Json.str "abc")] (fun _ => some "envkey")
      = Json.str "abc" :=
  ⟨coles_credential_gate.1 (mkCtx Json.null) packColes rfl rfl,
   coles_credential_gate.2 [("coles_api_key", Json.str "abc")] (fun _ => some "envkey") "abc"
     (by decide) rfl⟩

theorem roundHalfEven_abs_le (q : ℚ) : |(roundHalfEven q : ℚ) - q| ≤ 1 / 2 := by
  have h1 : (⌊q⌋ : ℚ) ≤ q := Int.floor_le q
  have h2 : q < ⌊q⌋ + 1 := Int.lt_floor_add_one q
  simp only [roundHalfEven]
  split_ifs with ha hb hc
  · rw [abs_le]
    constructor <;> linarith
  · rw [abs_le]
    push_cast
    constructor <;> linarith
  · rw [abs_le]
    constructor <;> linarith
  · rw [abs_le]
    push_cast
    constructor <;> linarith

theorem round2_abs_le (x : ℚ) : |round2 x - x| ≤ 1 / 200 := by
  have h := roundHalfEven_abs_le (x * 100)
  have hx : round2 x - x = ((roundHalfEven (x * 100) : ℚ) - x * 100) / 100 := by
    unfold round2
    ring
  rw [hx, abs_div]
  rw [show |(100 : ℚ)| = 100 by norm_num]
  linarith

theorem round2_55999 : round2 (55999 / 1000 : ℚ) = 56 := by
  have hf : ⌊(55999 / 1000 * 100 : ℚ)⌋ = 5599 := by
    rw [Int.floor_eq_iff]
    norm_num
  simp only [round2, roundHalfEven, hf]
  norm_num

theorem round2_2333 : round2 (2333 / 1000 : ℚ) = 233 / 100 := by
  have hf : ⌊(2333 / 1000 * 100 : ℚ)⌋ = 233 := by
    rw [Int.floor_eq_iff]
    norm_num
  simp only [round2, roundHalfEven, hf]
  norm_num

/-- C8: both prices of every built record are rounded to 2 decimal
places - they are integer multiples of 1/100 lying within half of that
step of the raw payload prices - and on the spec's concrete payload
(total 55.999, unit 2.333) the record carries 56.00 and 2.33. -/
theorem build_entry_rounds :
    (∀ (pack : PackConfig) (payload : Payload),
        (∃ n : ℤ, (build_entry pack payload).price_total = (n : ℚ) / 100)
        ∧ (∃ m : ℤ, (build_entry pack payload).price_unit = (m : ℚ) / 100)
        ∧ |(build_entry pack payload).price_total - payload.price_total| ≤ 1 / 200
        ∧ |(build_entry pack payload).price_unit - payload.price_unit| ≤ 1 / 200)
    ∧ (∀ pack : PackConfig,
        build_entry pack ⟨55999 / 1000, 2333 / 1000, 0⟩
          = ⟨pack.retailer, pack.suburb, pack.pack_size, 56, 233 / 100, pack.url, 0⟩) := by
  constructor
  · intro pack payload
    exact ⟨⟨roundHalfEven (payload.price_total * 100), rfl⟩,
      ⟨roundHalfEven (payload.price_unit * 100), rfl⟩,
      round2_abs_le payload.price_total, round2_abs_le payload.price_unit⟩
  · intro pack
    simp [build_entry, round2_55999, round2_2333]

/-- C9: the source keys "liquorland" and "first_choice" both dispatch
to `fetch_liquorland_like`, and that adapter selects its Origin/Referer
constants by branching on the pack's source key - "first_choice" gives
the First Choice origin, every other source key the Liquorland origin -
and stamps them into its request headers. -/
theorem liquorland_dispatch :
    FETCHERS "liquorland" = some fetch_liquorland_like
    ∧ FETCHERS "first_choice" = some fetch_liquorland_like
    ∧ (∀ pack : PackConfig, pack.source = "first_choice" →
        liquorland_origin pack = "https://www.firstchoiceliquor.com.au")
    ∧ (∀ pack : PackConfig, pack.source ≠ "first_choice" →
        liquorland_origin pack = "https://www.liquorland.com.au")
    ∧ (∀ pack : PackConfig, pack.headers = none →
        slookup (liquorland_request pack).headers "Origin" = some (liquorland_origin pack)
        ∧ slookup (liquorland_request pack).headers "Referer"
            = some (liquorland_origin pack ++ "/")) := by
  refine ⟨rfl, rfl, ?_, ?_, ?_⟩
  · intro pack h
    simp [liquorland_origin, h]
  · intro pack h
    simp [liquorland_origin, h]
  · intro pack h
    rw [show liquorland_request pack
        = liquorland_request { pack with headers := none } by rw [← h]]
    exact ⟨rfl, rfl⟩

theorem liquorland_dispatch_witness :
    liquorland_origin packFC = "https://www.firstchoiceliquor.com.au"
    ∧ liquorland_origin packLL = "https://www.liquorland.com.au"
    ∧ slookup (liquorland_request packFC).headers "Origin"
        = some "https://www.firstchoiceliquor.com.au" := by
  refine ⟨liquorland_dispatch.2.2.1 packFC rfl, liquorland_dispatch.2.2.2.1 packLL (by decide), ?_⟩
  have h := (liquorland_dispatch.2.2.2.2 packFC rfl).1
  rw [h]
  rfl
